import Mathlib

/-
Verification of the Shairport-Sync-Player bridge
(src/python-flask-socketio-server/app.py) against its specification.

The Python source is shallowly embedded: byte strings become `List Nat`
(each entry one byte), Python dicts used as the event cache become
association lists, fallible handlers return `Option` (with `none` standing
for an uncaught Python exception aborting the handler), and floating point
volume arithmetic is modelled exactly over the rationals.
-/

set_option autoImplicit false

namespace SpsPlayer

/-! ## Basic payload and event model -/

/-- A socket.io message payload as emitted by app.py: either the dict
`\x7b"data": text\x7d` for text metadata, a bare string (play transport events
emit their own name as payload), the dict `\x7b"data": int\x7d` for volume, or
the dict `\x7b"data": base64, "mimetype": mime\x7d` for cover art. -/
inductive SioPayload where
  | textData (data : String)
  | str (s : String)
  | intData (data : Int)
  | imageData (data : String) (mimetype : String)
deriving DecidableEq

/-- Where an emit goes. Every `socketio.emit` call in app.py is the
server-object method `SocketIO.emit` invoked without a `to`/`room` argument
(the request-scoped `emit` helper of flask_socketio is never imported), and
per flask_socketio semantics that form broadcasts to every connected client.
Hence the only target occurring in the embedding is `broadcast`. -/
inductive EmitTarget where
  | broadcast
deriving DecidableEq

/-- One `socketio.emit(event, payload)` call. -/
structure Emit where
  event : String
  payload : SioPayload
  target : EmitTarget
deriving DecidableEq

/-- The `SAVED_INFO` dict: event name to most recently stored payload. -/
abbrev Cache := List (String × SioPayload)

/-- `SAVED_INFO = \x7b\x7d` (app.py line 47): the cache starts empty. -/
def SAVED_INFO : Cache := []

/-- Python dict lookup `d.get(key)` on the association-list model. -/
def dictGet (key : String) : Cache → Option SioPayload
  | [] => none
  | (k, v) :: rest => if k = key then some v else dictGet key rest

/-- Python dict assignment `d[key] = v` on the association-list model:
overwrite in place if the key exists, else append. -/
def dictSet (key : String) (v : SioPayload) : Cache → Cache
  | [] => [(key, v)]
  | (k, w) :: rest => if k = key then (key, v) :: rest else (k, w) :: dictSet key v rest

/-- flask_socketio delivery semantics for the calls app.py makes: a
broadcast emit reaches exactly the connected sessions, so a connected
session receives the whole emit list and a disconnected one nothing.
Sessions are modelled as opaque numeric identifiers. -/
def receivedBy (connected : List Nat) (sid : Nat) (emits : List Emit) : List Emit :=
  if sid ∈ connected then emits else []

/-! ## Topic addressing and static tables (app.py lines 53-143) -/

/-- `known_play_metadata_types` (app.py lines 53-63). -/
def known_play_metadata_types : List (String × String) :=
  [("songalbum", "songalbum"), ("volume", "volume"), ("client_ip", "client_ip"),
   ("active_start", "active_start"), ("active_end", "active_end"),
   ("play_start", "play_start"), ("play_end", "play_end"),
   ("play_flush", "play_flush"), ("play_resume", "play_resume")]

/-- `known_core_metadata_types` (app.py lines 68-73). -/
def known_core_metadata_types : List (String × String) :=
  [("artist", "showArtist"), ("album", "showAlbum"),
   ("title", "showTitle"), ("genre", "showGenre")]

/-- `_form_subtopic_topic` (app.py lines 121-124): `TOPIC_ROOT + "/" + subtopic`.
The configured topic root is passed explicitly. -/
def form_subtopic_topic (root subtopic : String) : String :=
  root ++ "/" ++ subtopic

/-- `known_remote_commands` (app.py lines 128-143). -/
def known_remote_commands : List String :=
  ["command", "beginff", "beginrew", "mutetoggle", "nextitem", "previtem",
   "pause", "playpause", "play", "stop", "playresume", "shuffle_songs",
   "volumedown", "volumeup"]

/-- `_generate_remote_command` (app.py lines 146-154): known command tokens
map to the pair (topic `root/remote`, message = token); unknown tokens raise
`ValueError("Unknown remote command: ...")`, modelled as `Except.error`. -/
def generate_remote_command (root command : String) : Except String (String × String) :=
  if command ∈ known_remote_commands then
    Except.ok (root ++ "/remote", command)
  else
    Except.error ("Unknown remote command: " ++ command)

/-- A client remote-command request as each `@socketio.on("remote_...")`
handler executes it (app.py lines 380-470): validate the hard-coded token via
`_generate_remote_command`, then perform exactly one `mqttc.publish(topic, msg)`.
The result lists the broker publishes performed; an error means the
`ValueError` propagated and nothing was published. -/
def issueCommand (root command : String) : Except String (List (String × String)) :=
  match generate_remote_command root command with
  | Except.ok (topic, msg) => Except.ok [(topic, msg)]
  | Except.error e => Except.error e

/-- The thirteen client-facing remote command handlers of app.py
(lines 380-470), as pairs of the socket.io request name and the hard-coded
token the handler passes to `_generate_remote_command`. -/
def socketio_remote_handlers : List (String × String) :=
  [("remote_previtem", "previtem"), ("remote_nextitem", "nextitem"),
   ("remote_stop", "stop"), ("remote_pause", "pause"),
   ("remote_playpause", "playpause"), ("remote_play", "play"),
   ("remote_playresume", "playresume"), ("remote_mutetoggle", "mutetoggle"),
   ("remote_volumedown", "volumedown"), ("remote_volumeup", "volumeup"),
   ("remote_beginrew", "beginrew"), ("remote_beginff", "beginff"),
   ("remote_shuffle_songs", "shuffle_songs")]

/-! ## Byte-string decoding (Python `bytes.decode`) -/

/-- Python `payload.decode("ascii")`: succeeds iff every byte is below 128,
otherwise `UnicodeDecodeError` (modelled as `none`). -/
def asciiDecode (p : List Nat) : Option String :=
  if p.all (fun b => b < 128) then some (String.mk (p.map Char.ofNat)) else none

/-- Is a byte a UTF-8 continuation byte (0x80-0xbf)? -/
def isCont (b : Nat) : Bool := 0x80 ≤ b && b ≤ 0xbf

/-- Strict UTF-8 decoding of a byte list into characters, rejecting
overlong encodings, surrogates and out-of-range sequences — the behaviour
of Python `payload.decode("utf8")`, with `none` for `UnicodeDecodeError`. -/
def utf8DecodeAux : List Nat → Option (List Char)
  | [] => some []
  | b :: rest =>
    if b < 0x80 then
      (utf8DecodeAux rest).map (fun cs => Char.ofNat b :: cs)
    else if 0xc2 ≤ b && b ≤ 0xdf then
      match rest with
      | b2 :: r =>
        if isCont b2 then
          (utf8DecodeAux r).map (fun cs => Char.ofNat ((b - 0xc0) * 0x40 + (b2 - 0x80)) :: cs)
        else none
      | _ => none
    else if 0xe0 ≤ b && b ≤ 0xef then
      match rest with
      | b2 :: b3 :: r =>
        let lo2 := if b = 0xe0 then 0xa0 else 0x80
        let hi2 := if b = 0xed then 0x9f else 0xbf
        if lo2 ≤ b2 && b2 ≤ hi2 && isCont b3 then
          (utf8DecodeAux r).map
            (fun cs => Char.ofNat ((b - 0xe0) * 0x1000 + (b2 - 0x80) * 0x40 + (b3 - 0x80)) :: cs)
        else none
      | _ => none
    else if 0xf0 ≤ b && b ≤ 0xf4 then
      match rest with
      | b2 :: b3 :: b4 :: r =>
        let lo2 := if b = 0xf0 then 0x90 else 0x80
        let hi2 := if b = 0xf4 then 0x8f else 0xbf
        if lo2 ≤ b2 && b2 ≤ hi2 && isCont b3 && isCont b4 then
          (utf8DecodeAux r).map
            (fun cs =>
              Char.ofNat ((b - 0xf0) * 0x40000 + (b2 - 0x80) * 0x1000 +
                (b3 - 0x80) * 0x40 + (b4 - 0x80)) :: cs)
        else none
      | _ => none
    else none

/-- Python `payload.decode("utf8")`. -/
def utf8Decode (p : List Nat) : Option String :=
  (utf8DecodeAux p).map String.mk

/-- Encode a string as its byte list (used only to write concrete ASCII
test inputs compactly). -/
def strBytes (s : String) : List Nat :=
  s.data.map Char.toNat

/-- Python `s.split(sep)` for a one-character separator, as used by
`_send_volume_event`: split on every occurrence, keeping empty segments. -/
def pySplit (sep : Char) (s : String) : List String :=
  (s.data.splitOn sep).map String.mk

/-! ## base64 (Python `base64.b64encode(..).decode("utf-8")`) -/

/-- The base64 alphabet. -/
def base64Alphabet : List Char :=
  "ABCDEFGHIJKLMNOPQRSTUVWXYZabcdefghijklmnopqrstuvwxyz0123456789+/".data

/-- The base64 character for a 6-bit value. -/
def b64Char (n : Nat) : Char := base64Alphabet.getD n '='

/-- Standard base64 encoding of a byte list, as performed by
`base64.b64encode(payload).decode("utf-8")` in app.py. -/
def base64Encode : List Nat → String
  | [] => ""
  | [a] => String.mk [b64Char (a / 4), b64Char (a % 4 * 16)] ++ "=="
  | [a, b] =>
    String.mk [b64Char (a / 4), b64Char (a % 4 * 16 + b / 16), b64Char (b % 16 * 4)] ++ "="
  | a :: b :: c :: rest =>
    String.mk [b64Char (a / 4), b64Char (a % 4 * 16 + b / 16),
      b64Char (b % 16 * 4 + c / 64), b64Char (c % 64)] ++ base64Encode rest

/-! ## Python float parsing (model of `float(str)`) -/

/-- Python `str.strip()` whitespace characters relevant to `float`. -/
def pySpace (c : Char) : Bool :=
  c = ' ' || c = '\t' || c = '\n' || c = '\r' || c = Char.ofNat 11 || c = Char.ofNat 12

/-- Strip leading and trailing whitespace from a character list. -/
def stripChars (l : List Char) : List Char :=
  ((l.dropWhile pySpace).reverse.dropWhile pySpace).reverse

/-- Numeric value of a digit list (most significant first). -/
def digitsToNat (l : List Char) : Nat :=
  l.foldl (fun acc c => acc * 10 + (c.toNat - 48)) 0

/-- A Python float value as `float(str)` can produce it: a finite value
(held exactly as a rational), positive or negative infinity, or nan. -/
inductive PyFloatVal where
  | finite (q : ℚ)
  | posInf
  | negInf
  | nan
deriving DecidableEq

/-- Continuation of a Python `digitpart` after its first digit: digits
with single underscores allowed only between digits. -/
def digitpartRest : List Char → Bool
  | [] => true
  | '_' :: c :: rest => c.isDigit && digitpartRest rest
  | c :: rest => c.isDigit && digitpartRest rest

/-- The Python float-literal `digitpart` grammar: `digit (["_"] digit)*`
(so `1_0` is valid but `_10`, `10_` and `1__0` are not). -/
def digitpart : List Char → Bool
  | [] => false
  | c :: rest => c.isDigit && digitpartRest rest

/-- The digits of a digitpart with the underscore separators removed. -/
def digitsOf (l : List Char) : List Char :=
  l.filter (fun c => c != '_')

/-- Parse the mantissa of a decimal literal: `digits`, `digits.digits`,
`.digits` or `digits.` with at least one digit overall, each digit group
a Python digitpart (underscores between digits allowed). -/
def parseMantissa (cs : List Char) : Option ℚ :=
  match cs.splitOn '.' with
  | [ip] =>
    if digitpart ip then some (digitsToNat (digitsOf ip)) else none
  | [ip, fp] =>
    if (ip.isEmpty || digitpart ip) && (fp.isEmpty || digitpart fp) &&
        (!ip.isEmpty || !fp.isEmpty) then
      some ((digitsToNat (digitsOf ip) : ℚ) +
        (digitsToNat (digitsOf fp) : ℚ) / (10 : ℚ) ^ (digitsOf fp).length)
    else none
  | _ => none

/-- Parse an exponent part: optional sign then a digitpart. -/
def parseExpPart (cs : List Char) : Option Int :=
  match cs with
  | '+' :: rest =>
    if digitpart rest then some (digitsToNat (digitsOf rest)) else none
  | '-' :: rest =>
    if digitpart rest then some (-(digitsToNat (digitsOf rest) : Int)) else none
  | rest =>
    if digitpart rest then some (digitsToNat (digitsOf rest)) else none

/-- Model of Python `float(s)`: surrounding whitespace, optional sign,
then either one of the special tokens `inf`/`infinity`/`nan` (any case)
or a decimal mantissa (with Python underscore digit separators) and an
optional `e`/`E` exponent. Finite decimal literals are evaluated exactly
over the rationals; rounding to IEEE double, and the overflow of finite
literals beyond the double range to ±inf, are outside the model (volume
fields are small). `none` models `ValueError`. -/
def pyFloat (s : String) : Option PyFloatVal :=
  let cs := (stripChars s.data).map Char.toLower
  let sgn : Bool × List Char :=
    match cs with
    | '-' :: rest => (true, rest)
    | '+' :: rest => (false, rest)
    | _ => (false, cs)
  if sgn.2 = ['i', 'n', 'f'] ∨ sgn.2 = ['i', 'n', 'f', 'i', 'n', 'i', 't', 'y'] then
    some (if sgn.1 then PyFloatVal.negInf else PyFloatVal.posInf)
  else if sgn.2 = ['n', 'a', 'n'] then
    some PyFloatVal.nan
  else
    let sq : ℚ := if sgn.1 then -1 else 1
    match sgn.2.splitOn 'e' with
    | [m] => (parseMantissa m).map (fun q => PyFloatVal.finite (sq * q))
    | [m, e] =>
      match parseMantissa m, parseExpPart e with
      | some mv, some ev => some (PyFloatVal.finite (sq * mv * (10 : ℚ) ^ ev))
      | _, _ => none
    | _ => none

/-- Python `int(x)` on a finite float value: truncation toward zero. -/
def pyTrunc (q : ℚ) : Int :=
  if q < 0 then ⌈q⌉ else ⌊q⌋

/-- Python `int(x)` on a float: truncation toward zero for finite values;
±inf raises `OverflowError` and nan raises `ValueError` (both modelled as
`none`). -/
def pyIntOf : PyFloatVal → Option Int
  | PyFloatVal.finite q => some (pyTrunc q)
  | PyFloatVal.posInf => none
  | PyFloatVal.negInf => none
  | PyFloatVal.nan => none

/-! ## Numeric interpolator and volume pipeline (app.py lines 214-250) -/

/-- `make_interpolator` (app.py lines 214-227), over exact rationals. -/
def make_interpolator (left_min left_max right_min right_max : ℚ) : ℚ → ℚ :=
  let leftSpan := left_max - left_min
  let rightSpan := right_max - right_min
  let scaleFactor := rightSpan / leftSpan
  fun value => right_min + (value - left_min) * scaleFactor

/-- `volume_scaler = make_interpolator(-30.0, 0, -0.5, 100.0)` (app.py line 233). -/
def volume_scaler : ℚ → ℚ :=
  make_interpolator (-30) 0 (-1/2) 100

/-- The volume scaler as applied to a Python float value: finite inputs
are scaled exactly; in float arithmetic the closure maps ±inf to ±inf
(the scale factor is positive, so `-0.5 + (±inf + 30) * 3.35 = ±inf`)
and nan to nan. -/
def volume_scaler_f : PyFloatVal → PyFloatVal
  | PyFloatVal.finite q => PyFloatVal.finite (volume_scaler q)
  | PyFloatVal.posInf => PyFloatVal.posInf
  | PyFloatVal.negInf => PyFloatVal.negInf
  | PyFloatVal.nan => PyFloatVal.nan

/-! ## Image mime sniffing (app.py lines 179-186) -/

/-- The JPEG magic bytes checked by `_guessImageMime`. -/
def jpegSignature : List Nat := [0xff, 0xd8]

/-- The PNG signature checked by `_guessImageMime`
(the byte literal in app.py ends in 0x0d). -/
def pngSignature : List Nat := [0x89, 0x50, 0x4e, 0x47, 0x0d, 0x0a, 0x1a, 0x0d]

/-- `_guessImageMime` (app.py lines 179-186). -/
def guessImageMime (magic : List Nat) : String :=
  if jpegSignature.isPrefixOf magic then "image/jpeg"
  else if pngSignature.isPrefixOf magic then "image/png"
  else "image/jpg"

/-- `default_image_mime_type = "image/png"` (app.py line 24). The base64
of the configured default image file is unknown at verification time and is
passed around as a parameter `d`. -/
def default_image_mime_type : String := "image/png"

/-- The cover-art message dict computed by the cover branch of `on_message`
(app.py lines 285-291): a non-empty payload is base64-encoded with its
sniffed mime type, an empty payload is replaced by the configured default
image `d` and its mime type. -/
def coverPayload (d : String) (p : List Nat) : SioPayload :=
  if p ≠ [] then SioPayload.imageData (base64Encode p) (guessImageMime p)
  else SioPayload.imageData d default_image_mime_type

/-! ## Message handlers (app.py lines 189-293) -/

/-- `_send_and_store_playing_metadata` (app.py lines 189-204): decode the
payload as UTF-8 (an invalid payload raises, aborting the handler), store
the dict under key `playing_<name>` in the cache, and emit it. -/
def send_and_store_playing_metadata (metadata_name : String) (p : List Nat)
    (st : Cache) : Option (List Emit × Cache) :=
  (utf8Decode p).map fun text =>
    let msg := SioPayload.textData text
    let emitted := "playing_" ++ metadata_name
    ([⟨emitted, msg, EmitTarget.broadcast⟩], dictSet emitted msg st)

/-- `_send_play_event` (app.py lines 207-210): emit the event name as its
own payload; nothing is stored. -/
def send_play_event (metadata_name : String) : List Emit :=
  [⟨metadata_name, SioPayload.str metadata_name, EmitTarget.broadcast⟩]

/-- `_send_volume_event` (app.py lines 236-250): decode the payload as
ASCII and unpack it into exactly four comma-separated fields (any other
shape raises outside the try block, aborting the handler — modelled as
`none`); parse the first field as a float inside a try block, falling back
to 50.0 on `ValueError`, and scale it (still inside the try, which cannot
raise); then `int(volume_as_percent)` outside the try truncates a finite
value and raises on ±inf or nan, aborting the handler. Nothing is stored
in the cache. -/
def send_volume_event (p : List Nat) : Option (List Emit) :=
  match asciiDecode p with
  | none => none
  | some s =>
    match pySplit ',' s with
    | [airplay_volume, _volume, _lowest_volume, _highest_volume] =>
      let volume_as_percent : PyFloatVal :=
        match pyFloat airplay_volume with
        | some v => volume_scaler_f v
        | none => PyFloatVal.finite 50
      match pyIntOf volume_as_percent with
      | some n => some [⟨"volume", SioPayload.intData n, EmitTarget.broadcast⟩]
      | none => none
    | _ => none

/-- `on_message` (app.py lines 253-293). `root` is `TOPIC_ROOT`, `d` the
base64 of the configured default cover image, `tp` the message topic and
`p` its payload bytes. The source tests the topic with a sequence of
independent `if` statements against distinct full topics, so at most one
branch fires; the embedding writes the same tests as an if/else chain.
Returns the emits performed and the updated `SAVED_INFO`, or `none` when
an exception escapes the handler. -/
def on_message (root d tp : String) (p : List Nat) (st : Cache) :
    Option (List Emit × Cache) :=
  if tp = form_subtopic_topic root "artist" then
    send_and_store_playing_metadata "artist" p st
  else if tp = form_subtopic_topic root "album" then
    send_and_store_playing_metadata "album" p st
  else if tp = form_subtopic_topic root "genre" then
    send_and_store_playing_metadata "genre" p st
  else if tp = form_subtopic_topic root "title" then
    send_and_store_playing_metadata "title" p st
  else if tp = form_subtopic_topic root "play_start" then
    some (send_play_event "play_start", st)
  else if tp = form_subtopic_topic root "play_end" then
    some (send_play_event "play_end", st)
  else if tp = form_subtopic_topic root "play_flush" then
    some (send_play_event "play_flush", st)
  else if tp = form_subtopic_topic root "play_resume" then
    some (send_play_event "play_resume", st)
  else if tp = form_subtopic_topic root "volume" then
    (send_volume_event p).map (fun es => (es, st))
  else if tp = form_subtopic_topic root "cover" then
    some ([⟨"cover_art", coverPayload d p, EmitTarget.broadcast⟩],
      dictSet "cover_art" (coverPayload d p) st)
  else
    some ([], st)

/-- The cache key a message on topic `tp` writes, if any: only the four
handled text subtopics and the cover subtopic store into `SAVED_INFO`
(derived from the branches of `on_message`). -/
def kindWritten (root tp : String) : Option String :=
  if tp = form_subtopic_topic root "artist" then some "playing_artist"
  else if tp = form_subtopic_topic root "album" then some "playing_album"
  else if tp = form_subtopic_topic root "genre" then some "playing_genre"
  else if tp = form_subtopic_topic root "title" then some "playing_title"
  else if tp = form_subtopic_topic root "cover" then some "cover_art"
  else none

/-- Process a sequence of broker messages in order, threading the cache;
`none` when some handler invocation raised. -/
def processAll (root d : String) : List (String × List Nat) → Cache → Option Cache
  | [], st => some st
  | (tp, p) :: rest, st =>
    match on_message root d tp p st with
    | none => none
    | some (_, st') => processAll root d rest st'

/-- `handle_my_custom_event` (app.py lines 362-377), the handler of the
client resend request `myevent`: iterate `SAVED_INFO` and re-emit every
stored event via the broadcasting server-level emit. -/
def handle_my_custom_event (st : Cache) : List Emit :=
  st.map fun kv => ⟨kv.1, kv.2, EmitTarget.broadcast⟩

/-- The ten subtopics `on_message` actually tests for. -/
def handledSubtopics : List String :=
  ["artist", "album", "genre", "title", "play_start", "play_end",
   "play_flush", "play_resume", "volume", "cover"]

/-- `on_connect` (app.py lines 157-176): the subscribed subtopics — all
core and play metadata subtopics, plus `cover` when cover art display is
enabled. Note the set includes `songalbum`, `client_ip`, `active_start`
and `active_end`, which `on_message` never tests for. -/
def on_connect_subtopics (showCoverArt : Bool) : List String :=
  known_core_metadata_types.map Prod.fst ++ known_play_metadata_types.map Prod.fst ++
    (if showCoverArt then ["cover"] else [])

/-! ## Helper lemmas -/

theorem topic_ne (root : String) {a b : String} (h : a ≠ b) :
    form_subtopic_topic root a ≠ form_subtopic_topic root b := by
  intro he
  apply h
  have hd := congrArg String.data he
  simp only [form_subtopic_topic, String.data_append] at hd
  exact String.ext (List.append_cancel_left hd)

theorem dictGet_dictSet_self (key : String) (v : SioPayload) (st : Cache) :
    dictGet key (dictSet key v st) = some v := by
  induction st with
  | nil => simp [dictSet, dictGet]
  | cons kv rest ih =>
    obtain ⟨k, w⟩ := kv
    by_cases hk : k = key
    · simp [dictSet, dictGet, hk]
    · simp [dictSet, dictGet, hk, ih]

theorem dictGet_dictSet_ne (key key' : String) (v : SioPayload) (st : Cache)
    (h : key' ≠ key) :
    dictGet key' (dictSet key v st) = dictGet key' st := by
  have h' : ¬(key = key') := fun e => h e.symm
  induction st with
  | nil => simp [dictSet, dictGet, h']
  | cons kv rest ih =>
    obtain ⟨k, w⟩ := kv
    by_cases hk : k = key
    · subst hk
      simp [dictSet, dictGet, h']
    · simp [dictSet, dictGet, hk, ih]

theorem dictGet_mem (key : String) (v : SioPayload) (st : Cache)
    (h : dictGet key st = some v) : (key, v) ∈ st := by
  induction st with
  | nil => simp [dictGet] at h
  | cons kv rest ih =>
    obtain ⟨k, w⟩ := kv
    by_cases hk : k = key
    · subst hk
      simp [dictGet] at h
      subst h
      exact List.mem_cons_self _ _
    · simp only [dictGet, if_neg hk] at h
      exact List.mem_cons_of_mem _ (ih h)

theorem send_and_store_spec (name : String) (p : List Nat) (st : Cache)
    (es : List Emit) (st' : Cache)
    (h : send_and_store_playing_metadata name p st = some (es, st')) :
    ∃ s, utf8Decode p = some s ∧
      es = [⟨"playing_" ++ name, SioPayload.textData s, EmitTarget.broadcast⟩] ∧
      st' = dictSet ("playing_" ++ name) (SioPayload.textData s) st := by
  unfold send_and_store_playing_metadata at h
  cases hu : utf8Decode p with
  | none => rw [hu] at h; simp at h
  | some s =>
    rw [hu] at h
    simp only [Option.map_some', Option.some.injEq, Prod.mk.injEq] at h
    exact ⟨s, rfl, h.1.symm, h.2.symm⟩

theorem on_message_branches (root d : String) (p : List Nat) (st : Cache) :
    on_message root d (form_subtopic_topic root "artist") p st =
        send_and_store_playing_metadata "artist" p st ∧
    on_message root d (form_subtopic_topic root "album") p st =
        send_and_store_playing_metadata "album" p st ∧
    on_message root d (form_subtopic_topic root "genre") p st =
        send_and_store_playing_metadata "genre" p st ∧
    on_message root d (form_subtopic_topic root "title") p st =
        send_and_store_playing_metadata "title" p st ∧
    on_message root d (form_subtopic_topic root "play_start") p st =
        some (send_play_event "play_start", st) ∧
    on_message root d (form_subtopic_topic root "play_end") p st =
        some (send_play_event "play_end", st) ∧
    on_message root d (form_subtopic_topic root "play_flush") p st =
        some (send_play_event "play_flush", st) ∧
    on_message root d (form_subtopic_topic root "play_resume") p st =
        some (send_play_event "play_resume", st) ∧
    on_message root d (form_subtopic_topic root "volume") p st =
        (send_volume_event p).map (fun es => (es, st)) ∧
    on_message root d (form_subtopic_topic root "cover") p st =
        some ([⟨"cover_art", coverPayload d p, EmitTarget.broadcast⟩],
          dictSet "cover_art" (coverPayload d p) st) := by
  refine ⟨?_, ?_, ?_, ?_, ?_, ?_, ?_, ?_, ?_, ?_⟩ <;> unfold on_message
  · rw [if_pos rfl]
  · rw [if_neg (topic_ne root (by decide)), if_pos rfl]
  · rw [if_neg (topic_ne root (by decide)), if_neg (topic_ne root (by decide)),
      if_pos rfl]
  · rw [if_neg (topic_ne root (by decide)), if_neg (topic_ne root (by decide)),
      if_neg (topic_ne root (by decide)), if_pos rfl]
  · rw [if_neg (topic_ne root (by decide)), if_neg (topic_ne root (by decide)),
      if_neg (topic_ne root (by decide)), if_neg (topic_ne root (by decide)),
      if_pos rfl]
  · rw [if_neg (topic_ne root (by decide)), if_neg (topic_ne root (by decide)),
      if_neg (topic_ne root (by decide)), if_neg (topic_ne root (by decide)),
      if_neg (topic_ne root (by decide)), if_pos rfl]
  · rw [if_neg (topic_ne root (by decide)), if_neg (topic_ne root (by decide)),
      if_neg (topic_ne root (by decide)), if_neg (topic_ne root (by decide)),
      if_neg (topic_ne root (by decide)), if_neg (topic_ne root (by decide)),
      if_pos rfl]
  · rw [if_neg (topic_ne root (by decide)), if_neg (topic_ne root (by decide)),
      if_neg (topic_ne root (by decide)), if_neg (topic_ne root (by decide)),
      if_neg (topic_ne root (by decide)), if_neg (topic_ne root (by decide)),
      if_neg (topic_ne root (by decide)), if_pos rfl]
  · rw [if_neg (topic_ne root (by decide)), if_neg (topic_ne root (by decide)),
      if_neg (topic_ne root (by decide)), if_neg (topic_ne root (by decide)),
      if_neg (topic_ne root (by decide)), if_neg (topic_ne root (by decide)),
      if_neg (topic_ne root (by decide)), if_neg (topic_ne root (by decide)),
      if_pos rfl]
  · rw [if_neg (topic_ne root (by decide)), if_neg (topic_ne root (by decide)),
      if_neg (topic_ne root (by decide)), if_neg (topic_ne root (by decide)),
      if_neg (topic_ne root (by decide)), if_neg (topic_ne root (by decide)),
      if_neg (topic_ne root (by decide)), if_neg (topic_ne root (by decide)),
      if_neg (topic_ne root (by decide)), if_pos rfl]

theorem on_message_unmatched (root d sub : String) (p : List Nat) (st : Cache)
    (h : sub ∉ handledSubtopics) :
    on_message root d (form_subtopic_topic root sub) p st = some ([], st) := by
  simp only [handledSubtopics, List.mem_cons, List.not_mem_nil, or_false,
    not_or] at h
  obtain ⟨h1, h2, h3, h4, h5, h6, h7, h8, h9, h10⟩ := h
  unfold on_message
  rw [if_neg (topic_ne root h1), if_neg (topic_ne root h2), if_neg (topic_ne root h3),
    if_neg (topic_ne root h4), if_neg (topic_ne root h5), if_neg (topic_ne root h6),
    if_neg (topic_ne root h7), if_neg (topic_ne root h8), if_neg (topic_ne root h9),
    if_neg (topic_ne root h10)]

theorem on_message_nomatch (root d tp : String) (p : List Nat) (st : Cache)
    (h1 : tp ≠ form_subtopic_topic root "artist")
    (h2 : tp ≠ form_subtopic_topic root "album")
    (h3 : tp ≠ form_subtopic_topic root "genre")
    (h4 : tp ≠ form_subtopic_topic root "title")
    (h5 : tp ≠ form_subtopic_topic root "play_start")
    (h6 : tp ≠ form_subtopic_topic root "play_end")
    (h7 : tp ≠ form_subtopic_topic root "play_flush")
    (h8 : tp ≠ form_subtopic_topic root "play_resume")
    (h9 : tp ≠ form_subtopic_topic root "volume")
    (h10 : tp ≠ form_subtopic_topic root "cover") :
    on_message root d tp p st = some ([], st) := by
  unfold on_message
  rw [if_neg h1, if_neg h2, if_neg h3, if_neg h4, if_neg h5, if_neg h6,
    if_neg h7, if_neg h8, if_neg h9, if_neg h10]

theorem kindWritten_eval (root : String) :
    kindWritten root (form_subtopic_topic root "artist") = some "playing_artist" ∧
    kindWritten root (form_subtopic_topic root "album") = some "playing_album" ∧
    kindWritten root (form_subtopic_topic root "genre") = some "playing_genre" ∧
    kindWritten root (form_subtopic_topic root "title") = some "playing_title" ∧
    kindWritten root (form_subtopic_topic root "cover") = some "cover_art" := by
  refine ⟨?_, ?_, ?_, ?_, ?_⟩ <;> unfold kindWritten
  · rw [if_pos rfl]
  · rw [if_neg (topic_ne root (by decide)), if_pos rfl]
  · rw [if_neg (topic_ne root (by decide)), if_neg (topic_ne root (by decide)),
      if_pos rfl]
  · rw [if_neg (topic_ne root (by decide)), if_neg (topic_ne root (by decide)),
      if_neg (topic_ne root (by decide)), if_pos rfl]
  · rw [if_neg (topic_ne root (by decide)), if_neg (topic_ne root (by decide)),
      if_neg (topic_ne root (by decide)), if_neg (topic_ne root (by decide)),
      if_pos rfl]

theorem on_message_preserves (root d tp : String) (p : List Nat) (st st' : Cache)
    (es : List Emit) (K : String)
    (h : on_message root d tp p st = some (es, st'))
    (hK : kindWritten root tp ≠ some K) :
    dictGet K st' = dictGet K st := by
  by_cases c1 : tp = form_subtopic_topic root "artist"
  · subst c1
    rw [(on_message_branches root d p st).1] at h
    rw [(kindWritten_eval root).1] at hK
    obtain ⟨s, -, -, rfl⟩ := send_and_store_spec _ _ _ _ _ h
    exact dictGet_dictSet_ne _ _ _ _ (fun e => hK (congrArg some e.symm))
  by_cases c2 : tp = form_subtopic_topic root "album"
  · subst c2
    rw [(on_message_branches root d p st).2.1] at h
    rw [(kindWritten_eval root).2.1] at hK
    obtain ⟨s, -, -, rfl⟩ := send_and_store_spec _ _ _ _ _ h
    exact dictGet_dictSet_ne _ _ _ _ (fun e => hK (congrArg some e.symm))
  by_cases c3 : tp = form_subtopic_topic root "genre"
  · subst c3
    rw [(on_message_branches root d p st).2.2.1] at h
    rw [(kindWritten_eval root).2.2.1] at hK
    obtain ⟨s, -, -, rfl⟩ := send_and_store_spec _ _ _ _ _ h
    exact dictGet_dictSet_ne _ _ _ _ (fun e => hK (congrArg some e.symm))
  by_cases c4 : tp = form_subtopic_topic root "title"
  · subst c4
    rw [(on_message_branches root d p st).2.2.2.1] at h
    rw [(kindWritten_eval root).2.2.2.1] at hK
    obtain ⟨s, -, -, rfl⟩ := send_and_store_spec _ _ _ _ _ h
    exact dictGet_dictSet_ne _ _ _ _ (fun e => hK (congrArg some e.symm))
  by_cases c5 : tp = form_subtopic_topic root "play_start"
  · subst c5
    rw [(on_message_branches root d p st).2.2.2.2.1] at h
    simp only [Option.some.injEq, Prod.mk.injEq] at h
    rw [← h.2]
  by_cases c6 : tp = form_subtopic_topic root "play_end"
  · subst c6
    rw [(on_message_branches root d p st).2.2.2.2.2.1] at h
    simp only [Option.some.injEq, Prod.mk.injEq] at h
    rw [← h.2]
  by_cases c7 : tp = form_subtopic_topic root "play_flush"
  · subst c7
    rw [(on_message_branches root d p st).2.2.2.2.2.2.1] at h
    simp only [Option.some.injEq, Prod.mk.injEq] at h
    rw [← h.2]
  by_cases c8 : tp = form_subtopic_topic root "play_resume"
  · subst c8
    rw [(on_message_branches root d p st).2.2.2.2.2.2.2.1] at h
    simp only [Option.some.injEq, Prod.mk.injEq] at h
    rw [← h.2]
  by_cases c9 : tp = form_subtopic_topic root "volume"
  · subst c9
    rw [(on_message_branches root d p st).2.2.2.2.2.2.2.2.1] at h
    cases hsv : send_volume_event p with
    | none => rw [hsv] at h; simp at h
    | some l =>
      rw [hsv] at h
      simp only [Option.map_some', Option.some.injEq, Prod.mk.injEq] at h
      rw [← h.2]
  by_cases c10 : tp = form_subtopic_topic root "cover"
  · subst c10
    rw [(on_message_branches root d p st).2.2.2.2.2.2.2.2.2] at h
    rw [(kindWritten_eval root).2.2.2.2] at hK
    simp only [Option.some.injEq, Prod.mk.injEq] at h
    rw [← h.2]
    exact dictGet_dictSet_ne _ _ _ _ (fun e => hK (congrArg some e.symm))
  rw [on_message_nomatch root d tp p st c1 c2 c3 c4 c5 c6 c7 c8 c9 c10] at h
  simp only [Option.some.injEq, Prod.mk.injEq] at h
  rw [← h.2]

theorem processAll_preserves (root d : String) (ms : List (String × List Nat))
    (st st' : Cache) (K : String)
    (h : processAll root d ms st = some st')
    (hms : ∀ m ∈ ms, kindWritten root m.1 ≠ some K) :
    dictGet K st' = dictGet K st := by
  induction ms generalizing st with
  | nil =>
    simp only [processAll, Option.some.injEq] at h
    rw [← h]
  | cons m rest ih =>
    obtain ⟨tp, p⟩ := m
    unfold processAll at h
    cases hm : on_message root d tp p st with
    | none => rw [hm] at h; simp at h
    | some r =>
      rw [hm] at h
      have hrest : dictGet K st' = dictGet K r.2 :=
        ih r.2 h (fun m hm' => hms m (List.mem_cons_of_mem _ hm'))
      have hstep : dictGet K r.2 = dictGet K st :=
        on_message_preserves root d tp p st r.2 r.1 K (by rw [hm])
          (hms (tp, p) (List.mem_cons_self _ _))
      rw [hrest, hstep]

theorem send_volume_event_parsed (p : List Nat) (s a b c e : String) (q : ℚ)
    (h1 : asciiDecode p = some s) (h2 : pySplit ',' s = [a, b, c, e])
    (h3 : pyFloat a = some (PyFloatVal.finite q)) :
    send_volume_event p =
      some [⟨"volume", SioPayload.intData (pyTrunc (volume_scaler q)),
        EmitTarget.broadcast⟩] := by
  simp only [send_volume_event, h1, h2, h3, volume_scaler_f, pyIntOf]

theorem send_volume_event_fallback (p : List Nat) (s a b c e : String)
    (h1 : asciiDecode p = some s) (h2 : pySplit ',' s = [a, b, c, e])
    (h3 : pyFloat a = none) :
    send_volume_event p =
      some [⟨"volume", SioPayload.intData (pyTrunc 50), EmitTarget.broadcast⟩] := by
  simp only [send_volume_event, h1, h2, h3, pyIntOf]

theorem send_volume_event_special (p : List Nat) (s a b c e : String) (v : PyFloatVal)
    (h1 : asciiDecode p = some s) (h2 : pySplit ',' s = [a, b, c, e])
    (h3 : pyFloat a = some v) (hv : pyIntOf (volume_scaler_f v) = none) :
    send_volume_event p = none := by
  simp only [send_volume_event, h1, h2, h3, hv]

theorem pyFloat_m10 : pyFloat "-10.00" = some (PyFloatVal.finite (-10)) := by
  have h : pyFloat "-10.00" =
      some (PyFloatVal.finite (-1 * ((digitsToNat (digitsOf ['1', '0']) : ℚ) +
        (digitsToNat (digitsOf ['0', '0']) : ℚ) /
          (10 : ℚ) ^ (digitsOf ['0', '0']).length))) := rfl
  rw [h, show digitsToNat (digitsOf ['1', '0']) = 10 from by decide,
    show digitsOf ['0', '0'] = ['0', '0'] from by decide,
    show digitsToNat ['0', '0'] = 0 from by decide]
  norm_num

theorem pyFloat_m144 : pyFloat "-144.00" = some (PyFloatVal.finite (-144)) := by
  have h : pyFloat "-144.00" =
      some (PyFloatVal.finite (-1 * ((digitsToNat (digitsOf ['1', '4', '4']) : ℚ) +
        (digitsToNat (digitsOf ['0', '0']) : ℚ) /
          (10 : ℚ) ^ (digitsOf ['0', '0']).length))) := rfl
  rw [h, show digitsToNat (digitsOf ['1', '4', '4']) = 144 from by decide,
    show digitsOf ['0', '0'] = ['0', '0'] from by decide,
    show digitsToNat ['0', '0'] = 0 from by decide]
  norm_num

theorem volume_scaler_m144 : volume_scaler (-144) = -1912/5 := by
  norm_num [volume_scaler, make_interpolator]

theorem pyTrunc_50 : pyTrunc 50 = 50 := by
  unfold pyTrunc
  rw [if_neg (by norm_num)]
  norm_num

theorem pyTrunc_vs_m10 : pyTrunc (volume_scaler (-10)) = 66 := by
  rw [show volume_scaler (-10) = 133/2 from by norm_num [volume_scaler, make_interpolator]]
  unfold pyTrunc
  rw [if_neg (by norm_num), Int.floor_eq_iff]
  norm_num

theorem pyTrunc_vs_m144 : pyTrunc (volume_scaler (-144)) = -382 := by
  rw [volume_scaler_m144]
  unfold pyTrunc
  rw [if_pos (by norm_num), Int.ceil_eq_iff]
  norm_num

theorem coverPayload_empty (d : String) :
    coverPayload d [] = SioPayload.imageData d default_image_mime_type := by
  simp [coverPayload]

theorem coverPayload_nonempty (d : String) (p : List Nat) (h : p ≠ []) :
    coverPayload d p = SioPayload.imageData (base64Encode p) (guessImageMime p) := by
  simp [coverPayload, h]

theorem prefix_nonempty (a : Nat) (l p : List Nat) (h : (a :: l).isPrefixOf p = true) :
    p ≠ [] := by
  cases p with
  | nil => simp [List.isPrefixOf] at h
  | cons b q => exact List.cons_ne_nil b q

theorem png_not_jpeg (p : List Nat) (hp : pngSignature.isPrefixOf p = true) :
    jpegSignature.isPrefixOf p = false := by
  obtain ⟨t, rfl⟩ := List.isPrefixOf_iff_prefix.mp hp
  rfl

theorem guessImageMime_jpeg (p : List Nat) (h : jpegSignature.isPrefixOf p = true) :
    guessImageMime p = "image/jpeg" := by
  simp [guessImageMime, h]

theorem guessImageMime_png (p : List Nat) (hp : pngSignature.isPrefixOf p = true)
    (hj : jpegSignature.isPrefixOf p = false) :
    guessImageMime p = "image/png" := by
  simp [guessImageMime, hp, hj]

theorem guessImageMime_other (p : List Nat) (hj : jpegSignature.isPrefixOf p = false)
    (hp : pngSignature.isPrefixOf p = false) :
    guessImageMime p = "image/jpg" := by
  simp [guessImageMime, hj, hp]

/-! ## Claim theorems -/

/-- C1 counterexample: the claim fails for the volume kind. A volume
update on the empty cache emits a volume event (here with percentage 66)
but stores nothing, so an immediately following replay delivers no volume
event at all — not the latest value. -/
theorem c1_counterexample :
    on_message "sps" "" (form_subtopic_topic "sps" "volume")
        (strBytes "-10.00,1,2,3") SAVED_INFO =
      some ([⟨"volume", SioPayload.intData 66, EmitTarget.broadcast⟩], SAVED_INFO) ∧
    handle_my_custom_event SAVED_INFO = [] := by
  refine ⟨?_, rfl⟩
  rw [(on_message_branches "sps" "" _ SAVED_INFO).2.2.2.2.2.2.2.2.1,
    send_volume_event_parsed _ "-10.00,1,2,3" "-10.00" "1" "2" "3" (-10)
      (by decide) (by decide) pyFloat_m10,
    pyTrunc_vs_m10]
  rfl

/-- C1 (amended): the update-then-replay guarantee holds exactly for the
kinds the code stores in `SAVED_INFO` — the four text metadata kinds and
cover art. For such a kind K, after an update whose topic writes K and any
number of further messages none of which writes K, the replay broadcast
still contains the value K held right after the update, and every
connected session receives it. Volume and play transport events are
emitted but never cached, so no such guarantee exists for them. -/
theorem c1_amended (root d tp : String) (p : List Nat) (st st1 st2 : Cache)
    (es : List Emit) (K : String) (v : SioPayload)
    (sessions : List Nat) (sid : Nat)
    (hupd : on_message root d tp p st = some (es, st1))
    (hwrite : kindWritten root tp = some K)
    (hval : dictGet K st1 = some v)
    (ms : List (String × List Nat))
    (hothers : ∀ m ∈ ms, kindWritten root m.1 ≠ some K)
    (hrun : processAll root d ms st1 = some st2)
    (hconn : sid ∈ sessions) :
    dictGet K st2 = some v ∧
    Emit.mk K v EmitTarget.broadcast ∈
      receivedBy sessions sid (handle_my_custom_event st2) := by
  have hpres : dictGet K st2 = dictGet K st1 :=
    processAll_preserves root d ms st1 st2 K hrun hothers
  have hK2 : dictGet K st2 = some v := hpres.trans hval
  refine ⟨hK2, ?_⟩
  unfold receivedBy
  rw [if_pos hconn]
  exact List.mem_map.mpr ⟨(K, v), dictGet_mem _ _ _ hK2, rfl⟩

/-- C1 witness: an artist update, followed by an album update, still
replays the artist value to a connected session. -/
theorem c1_amended_witness :
    dictGet "playing_artist"
        [("playing_artist", SioPayload.textData "A"),
         ("playing_album", SioPayload.textData "B")] =
      some (SioPayload.textData "A") ∧
    Emit.mk "playing_artist" (SioPayload.textData "A") EmitTarget.broadcast ∈
      receivedBy [7] 7 (handle_my_custom_event
        [("playing_artist", SioPayload.textData "A"),
         ("playing_album", SioPayload.textData "B")]) :=
  c1_amended "sps" "" (form_subtopic_topic "sps" "artist") [65] SAVED_INFO
    [("playing_artist", SioPayload.textData "A")]
    [("playing_artist", SioPayload.textData "A"),
     ("playing_album", SioPayload.textData "B")]
    [⟨"playing_artist", SioPayload.textData "A", EmitTarget.broadcast⟩]
    "playing_artist" (SioPayload.textData "A") [7] 7
    (by decide) (by decide) (by decide)
    [(form_subtopic_topic "sps" "album", [66])]
    (by decide) (by decide) (by decide)

/-- C2 counterexample: `songalbum` is claimed to be a supported
text-passthrough subtopic, but a message on `root/songalbum` produces no
event and changes no state — `on_message` has no branch for it. -/
theorem c2_counterexample :
    on_message "sps" "" (form_subtopic_topic "sps" "songalbum") [65] SAVED_INFO =
      some ([], SAVED_INFO) := by
  decide

/-- C2 (amended): the text subtopics the classifier supports are exactly
artist, album, genre and title; each maps 1:1 to the event kind
`playing_<subtopic>` carrying the UTF-8 decoded payload. The subtopics
songalbum, client_ip, active_start and active_end — though subscribed —
behave like every unsupported subtopic: no event, no state change. -/
theorem c2_classify (root d : String) (p : List Nat) (st : Cache) :
    (∀ s, utf8Decode p = some s →
      ∀ t, t ∈ (["artist", "album", "genre", "title"] : List String) →
        on_message root d (form_subtopic_topic root t) p st =
          some ([⟨"playing_" ++ t, SioPayload.textData s, EmitTarget.broadcast⟩],
            dictSet ("playing_" ++ t) (SioPayload.textData s) st)) ∧
    (∀ t, t ∈ (["songalbum", "client_ip", "active_start", "active_end"] : List String) →
      on_message root d (form_subtopic_topic root t) p st = some ([], st)) ∧
    (∀ sub, sub ∉ handledSubtopics →
      on_message root d (form_subtopic_topic root sub) p st = some ([], st)) := by
  refine ⟨?_, ?_, fun sub h => on_message_unmatched root d sub p st h⟩
  · intro s hs t ht
    simp only [List.mem_cons, List.not_mem_nil, or_false] at ht
    rcases ht with rfl | rfl | rfl | rfl
    · rw [(on_message_branches root d p st).1]
      unfold send_and_store_playing_metadata
      rw [hs]
      rfl
    · rw [(on_message_branches root d p st).2.1]
      unfold send_and_store_playing_metadata
      rw [hs]
      rfl
    · rw [(on_message_branches root d p st).2.2.1]
      unfold send_and_store_playing_metadata
      rw [hs]
      rfl
    · rw [(on_message_branches root d p st).2.2.2.1]
      unfold send_and_store_playing_metadata
      rw [hs]
      rfl
  · intro t ht
    simp only [List.mem_cons, List.not_mem_nil, or_false] at ht
    rcases ht with rfl | rfl | rfl | rfl <;>
      exact on_message_unmatched root d _ p st (by decide)

/-- C2 witness: an artist message with payload byte 65 produces the
`playing_artist` event with text "A"; see also the counterexample for the
ignored subtopics. -/
theorem c2_classify_witness :
    on_message "sps" "" (form_subtopic_topic "sps" "artist") [65] SAVED_INFO =
      some ([⟨"playing_artist", SioPayload.textData "A", EmitTarget.broadcast⟩],
        dictSet "playing_artist" (SioPayload.textData "A") SAVED_INFO) :=
  (c2_classify "sps" "" [65] SAVED_INFO).1 "A" (by decide) "artist" (by decide)

/-- C3 counterexample: a replay requested by session 1 is also received in
full by session 2. The handler re-emits with the server-level broadcasting
emit and never references the requesting session, so a cached event
reaches every connected session, not only the requester. -/
theorem c3_counterexample :
    receivedBy [1, 2] 2
        (handle_my_custom_event [("playing_artist", SioPayload.textData "A")]) =
      [⟨"playing_artist", SioPayload.textData "A", EmitTarget.broadcast⟩] := by
  decide

/-- C3 (amended): the resend request replays every cached event — each
cached kind exactly once — as a broadcast, so every connected session
(including but not limited to the requester) receives the full cache. -/
theorem c3_amended (connected : List Nat) (sid : Nat) (st : Cache)
    (h : sid ∈ connected) :
    receivedBy connected sid (handle_my_custom_event st) = handle_my_custom_event st ∧
    (handle_my_custom_event st).length = st.length := by
  refine ⟨?_, by simp [handle_my_custom_event]⟩
  unfold receivedBy
  rw [if_pos h]

/-- C3 witness at a concrete cache and session set. -/
theorem c3_amended_witness :
    receivedBy [1, 2] 1
        (handle_my_custom_event [("cover_art", SioPayload.imageData "D" "image/png")]) =
      handle_my_custom_event [("cover_art", SioPayload.imageData "D" "image/png")] ∧
    (handle_my_custom_event [("cover_art", SioPayload.imageData "D" "image/png")]).length =
      ([("cover_art", SioPayload.imageData "D" "image/png")] : Cache).length :=
  c3_amended [1, 2] 1 _ (by decide)

/-- C4 counterexample: a volume payload that does not split into exactly
four comma-separated fields (here the three bytes of "abc") aborts the
handler with an uncaught unpacking error, and a well-shaped four-field
payload whose first field parses to infinity aborts at the int()
conversion outside the try block — in neither case is the fallback 50
emitted. -/
theorem c4_counterexample :
    on_message "sps" "" (form_subtopic_topic "sps" "volume") (strBytes "abc")
        SAVED_INFO = none ∧
    on_message "sps" "" (form_subtopic_topic "sps" "volume") (strBytes "inf,0,0,0")
        SAVED_INFO = none := by
  constructor <;> decide

/-- C4 (amended): volume handling is exception-free exactly on payloads
that decode as ASCII, split into exactly four comma-separated fields, and
whose first field does not parse to an infinite or nan float. On such a
payload, a first field that fails to parse as a float yields the fallback
percentage 50; a first field parsing to ±inf or nan instead aborts the
handler at the int() conversion outside the try block, as do payloads of
any other shape. -/
theorem c4_amended (root d : String) (st : Cache) (p : List Nat)
    (s a b c e : String)
    (h1 : asciiDecode p = some s) (h2 : pySplit ',' s = [a, b, c, e]) :
    (pyFloat a = none →
      on_message root d (form_subtopic_topic root "volume") p st =
        some ([⟨"volume", SioPayload.intData 50, EmitTarget.broadcast⟩], st)) ∧
    (∀ v, pyFloat a = some v → pyIntOf (volume_scaler_f v) = none →
      on_message root d (form_subtopic_topic root "volume") p st = none) := by
  constructor
  · intro h3
    rw [(on_message_branches root d p st).2.2.2.2.2.2.2.2.1,
      send_volume_event_fallback p s a b c e h1 h2 h3, pyTrunc_50]
    rfl
  · intro v h3 hv
    rw [(on_message_branches root d p st).2.2.2.2.2.2.2.2.1,
      send_volume_event_special p s a b c e v h1 h2 h3 hv]
    rfl

/-- C4 witness: the payload "abc,1,2,3" has four fields with a
non-parseable first field and yields percentage 50, while "nan,1,2,3"
parses to nan and aborts the handler. -/
theorem c4_amended_witness :
    on_message "sps" "" (form_subtopic_topic "sps" "volume")
        (strBytes "abc,1,2,3") SAVED_INFO =
      some ([⟨"volume", SioPayload.intData 50, EmitTarget.broadcast⟩], SAVED_INFO) ∧
    on_message "sps" "" (form_subtopic_topic "sps" "volume")
        (strBytes "nan,1,2,3") SAVED_INFO = none :=
  ⟨(c4_amended "sps" "" SAVED_INFO (strBytes "abc,1,2,3") "abc,1,2,3" "abc" "1" "2" "3"
      (by decide) (by decide)).1 (by decide),
   (c4_amended "sps" "" SAVED_INFO (strBytes "nan,1,2,3") "nan,1,2,3" "nan" "1" "2" "3"
      (by decide) (by decide)).2 PyFloatVal.nan (by decide) (by decide)⟩

/-- C5: cover-art handling. An empty payload yields the configured default
image and its exact mime type; a payload starting with FF D8 yields
image/jpeg; a payload starting with the PNG signature checked by the code
yields image/png; any other non-empty payload yields the generic fallback
image/jpg; in every case the event is a base64 data/mimetype dict stored
under cover_art and broadcast. -/
theorem c5_cover_art (root d : String) (st : Cache) :
    (on_message root d (form_subtopic_topic root "cover") [] st =
      some ([⟨"cover_art", SioPayload.imageData d default_image_mime_type,
          EmitTarget.broadcast⟩],
        dictSet "cover_art" (SioPayload.imageData d default_image_mime_type) st)) ∧
    (∀ p : List Nat, jpegSignature.isPrefixOf p = true →
      on_message root d (form_subtopic_topic root "cover") p st =
        some ([⟨"cover_art", SioPayload.imageData (base64Encode p) "image/jpeg",
            EmitTarget.broadcast⟩],
          dictSet "cover_art" (SioPayload.imageData (base64Encode p) "image/jpeg") st)) ∧
    (∀ p : List Nat, pngSignature.isPrefixOf p = true →
      on_message root d (form_subtopic_topic root "cover") p st =
        some ([⟨"cover_art", SioPayload.imageData (base64Encode p) "image/png",
            EmitTarget.broadcast⟩],
          dictSet "cover_art" (SioPayload.imageData (base64Encode p) "image/png") st)) ∧
    (∀ p : List Nat, p ≠ [] → jpegSignature.isPrefixOf p = false →
      pngSignature.isPrefixOf p = false →
      on_message root d (form_subtopic_topic root "cover") p st =
        some ([⟨"cover_art", SioPayload.imageData (base64Encode p) "image/jpg",
            EmitTarget.broadcast⟩],
          dictSet "cover_art" (SioPayload.imageData (base64Encode p) "image/jpg") st)) := by
  refine ⟨?_, ?_, ?_, ?_⟩
  · rw [(on_message_branches root d [] st).2.2.2.2.2.2.2.2.2, coverPayload_empty]
  · intro p h
    rw [(on_message_branches root d p st).2.2.2.2.2.2.2.2.2,
      coverPayload_nonempty d p (prefix_nonempty _ _ _ h), guessImageMime_jpeg p h]
  · intro p h
    rw [(on_message_branches root d p st).2.2.2.2.2.2.2.2.2,
      coverPayload_nonempty d p (prefix_nonempty _ _ _ h),
      guessImageMime_png p h (png_not_jpeg p h)]
  · intro p hne hj hp
    rw [(on_message_branches root d p st).2.2.2.2.2.2.2.2.2,
      coverPayload_nonempty d p hne, guessImageMime_other p hj hp]

/-- C5 witness: a payload starting FF D8 is classified image/jpeg, and the
two-byte PNG-signature check and fallback are exercised likewise. -/
theorem c5_cover_art_witness :
    on_message "sps" "D" (form_subtopic_topic "sps" "cover") [0xff, 0xd8, 0] SAVED_INFO =
      some ([⟨"cover_art",
          SioPayload.imageData (base64Encode [0xff, 0xd8, 0]) "image/jpeg",
          EmitTarget.broadcast⟩],
        dictSet "cover_art"
          (SioPayload.imageData (base64Encode [0xff, 0xd8, 0]) "image/jpeg") SAVED_INFO) :=
  (c5_cover_art "sps" "D" SAVED_INFO).2.1 [0xff, 0xd8, 0] (by decide)

/-- C6: issuing the remote command "stop" publishes exactly the token
"stop" to topic root/remote; any token outside the known command list
fails with an error naming the token and performs no broker publish. -/
theorem c6_issue_command (root : String) :
    issueCommand root "stop" = Except.ok [(root ++ "/remote", "stop")] ∧
    ∀ tok, tok ∉ known_remote_commands →
      issueCommand root tok = Except.error ("Unknown remote command: " ++ tok) := by
  constructor
  · unfold issueCommand generate_remote_command
    rw [if_pos (by decide)]
  · intro tok htok
    unfold issueCommand generate_remote_command
    rw [if_neg htok]

/-- C6 witness at a concrete root and a concrete unknown token. -/
theorem c6_issue_command_witness :
    issueCommand "sps" "stop" = Except.ok [("sps/remote", "stop")] ∧
    issueCommand "sps" "not_a_real_command" =
      Except.error "Unknown remote command: not_a_real_command" :=
  ⟨(c6_issue_command "sps").1,
   (c6_issue_command "sps").2 "not_a_real_command" (by decide)⟩

/-- C7 counterexample: before any cover message, the cache holds no
cover_art entry at all — `SAVED_INFO` starts empty, so a replay to a
session that joins before the first cover message delivers nothing. -/
theorem c7_counterexample :
    dictGet "cover_art" SAVED_INFO = none ∧
    handle_my_custom_event SAVED_INFO = [] :=
  ⟨rfl, rfl⟩

/-- C7 (amended): the cache is not pre-seeded: initially it has no
cover_art entry and replay delivers nothing. The configured default image
(with its mime type) enters the cache only once a cover message with
empty payload arrives, after which replay does include it. -/
theorem c7_amended (root d : String) :
    dictGet "cover_art" SAVED_INFO = none ∧
    handle_my_custom_event SAVED_INFO = [] ∧
    on_message root d (form_subtopic_topic root "cover") [] SAVED_INFO =
      some ([⟨"cover_art", SioPayload.imageData d default_image_mime_type,
          EmitTarget.broadcast⟩],
        [("cover_art", SioPayload.imageData d default_image_mime_type)]) ∧
    handle_my_custom_event
        [("cover_art", SioPayload.imageData d default_image_mime_type)] =
      [⟨"cover_art", SioPayload.imageData d default_image_mime_type,
        EmitTarget.broadcast⟩] := by
  refine ⟨rfl, rfl, ?_, rfl⟩
  rw [(on_message_branches root d [] SAVED_INFO).2.2.2.2.2.2.2.2.2, coverPayload_empty]
  rfl

/-- C8 counterexample: for the mute sentinel -144.00 the pipeline does not
clamp: it extrapolates the linear map to -1912/5 = -382.4, strictly below
the destination minimum -0.5, and emits percentage -382. -/
theorem c8_counterexample :
    volume_scaler (-144) = -1912/5 ∧
    volume_scaler (-144) < -1/2 ∧
    on_message "sps" "" (form_subtopic_topic "sps" "volume")
        (strBytes "-144.00,0.00,-30.00,0.00") SAVED_INFO =
      some ([⟨"volume", SioPayload.intData (-382), EmitTarget.broadcast⟩], SAVED_INFO) := by
  refine ⟨volume_scaler_m144, by rw [volume_scaler_m144]; norm_num, ?_⟩
  rw [(on_message_branches "sps" "" _ SAVED_INFO).2.2.2.2.2.2.2.2.1,
    send_volume_event_parsed _ "-144.00,0.00,-30.00,0.00" "-144.00" "0.00" "-30.00" "0.00"
      (-144) (by decide) (by decide) pyFloat_m144,
    pyTrunc_vs_m144]
  rfl

/-- C8 (amended): for every volume value below -30.0 the pipeline applies
the linear interpolation unchanged — no clamping or special-casing — so
the scaled value is the raw extrapolation, strictly below the destination
minimum -0.5. In particular -144.00 scales to -382.4 and is emitted as
percentage -382. -/
theorem c8_amended (v : ℚ) (h : v < -30) :
    volume_scaler v = -1/2 + (v - -30) * ((100 - -1/2) / (0 - -30)) ∧
    volume_scaler v < -1/2 := by
  constructor
  · rfl
  · have hc : volume_scaler v = -1/2 + (v + 30) * (67/20) := by
      show (-1/2 : ℚ) + (v - -30) * ((100 - -1/2) / (0 - -30)) = _
      norm_num
    rw [hc]
    nlinarith

/-- C8 witness at the mute sentinel -144. -/
theorem c8_amended_witness :
    volume_scaler (-144) = -1/2 + (-144 - -30) * ((100 - -1/2) / (0 - -30)) ∧
    volume_scaler (-144) < -1/2 :=
  c8_amended (-144) (by norm_num)

/-- C9: the volume interpolator built from source range [-30, 0] and
destination range [-0.5, 100] is strictly monotone on the source range and
maps the endpoints to -0.5 and 100 exactly (in exact rational
arithmetic). -/
theorem c9_volume_monotone (v1 v2 : ℚ) (h1 : -30 ≤ v1) (h2 : v2 ≤ 0) (hlt : v1 < v2) :
    volume_scaler v1 < volume_scaler v2 ∧
    volume_scaler (-30) = -1/2 ∧ volume_scaler 0 = 100 := by
  refine ⟨?_, by norm_num [volume_scaler, make_interpolator],
    by norm_num [volume_scaler, make_interpolator]⟩
  have e1 : volume_scaler v1 = -1/2 + (v1 + 30) * (67/20) := by
    show (-1/2 : ℚ) + (v1 - -30) * ((100 - -1/2) / (0 - -30)) = _
    norm_num
  have e2 : volume_scaler v2 = -1/2 + (v2 + 30) * (67/20) := by
    show (-1/2 : ℚ) + (v2 - -30) * ((100 - -1/2) / (0 - -30)) = _
    norm_num
  rw [e1, e2]
  nlinarith

/-- C9 witness on concrete interior points. -/
theorem c9_volume_monotone_witness :
    volume_scaler (-20) < volume_scaler (-10) ∧
    volume_scaler (-30) = -1/2 ∧ volume_scaler 0 = 100 :=
  c9_volume_monotone (-20) (-10) (by norm_num) (by norm_num) (by norm_num)

/-- C10: every one of the thirteen client-facing remote command handlers
passes a token that is a member of the known-remote-commands list, so the
unknown-command branch is unreachable from a client request and every
client command performs exactly one publish of its token to root/remote. -/
theorem c10_handlers (pr : String × String) (hp : pr ∈ socketio_remote_handlers)
    (root : String) :
    pr.2 ∈ known_remote_commands ∧
    issueCommand root pr.2 = Except.ok [(root ++ "/remote", pr.2)] := by
  fin_cases hp <;>
    exact ⟨by decide,
      by unfold issueCommand generate_remote_command; rw [if_pos (by decide)]⟩

/-- C10 witness at the remote_stop handler with a concrete root. -/
theorem c10_handlers_witness :
    "stop" ∈ known_remote_commands ∧
    issueCommand "sps" "stop" = Except.ok [("sps/remote", "stop")] :=
  c10_handlers ("remote_stop", "stop") (by decide) "sps"

end SpsPlayer
